import Mathlib

/-!
Shallow embedding of the inquiry reconciliation and assignment workflow of
the travel-agency backend (src/controllers/inquiryController.js), together
with the pieces of createInquiry and updateInquiry that the verified claims
depend on.  JavaScript strings are modelled as Lean String; a JS value that
may be undefined is an Option; JS truthiness of a string ("" is falsy) is
made explicit in the selection helpers below.  Timestamps are Nat.
-/

namespace MTB

/-- JS expression a \x7b\x7d b on string-or-undefined values, returning a
string: the left value when it is a defined non-empty string, otherwise the
default.  Models chains such as inquiryData.customerPhone or ''. -/
def jsSel (a : Option String) (d : String) : String :=
  match a with
  | some s => if s = "" then d else s
  | none => d

/-- JS expression a or b on string-or-undefined values, returning a
string-or-undefined: models externalId or id or undefined. -/
def jsSelO (a : Option String) (b : Option String) : Option String :=
  match a with
  | some s => if s = "" then b else some s
  | none => b

/-- Characters removed by JavaScript String.prototype.trim (the common
whitespace set). -/
def isJsWhitespace (c : Char) : Bool :=
  c = ' ' || c = '\t' || c = '\n' || c = '\r' || c = '\x0b' || c = '\x0c'

/-- Trim on a character list: drop whitespace from both ends. -/
def trimChars (l : List Char) : List Char :=
  ((l.dropWhile isJsWhitespace).reverse.dropWhile isJsWhitespace).reverse

/-- Model of JavaScript String.prototype.trim. -/
def jsTrim (s : String) : String :=
  String.mk (trimChars s.data)

/-- Hexadecimal alphabet test, as in the character class [0-9a-fA-F]. -/
def isHexChar (c : Char) : Bool :=
  ('0' ≤ c && c ≤ '9') || ('a' ≤ c && c ≤ 'f') || ('A' ≤ c && c ≤ 'F')

/-- The Reconciliation Engine's local-identifier test: the regular
expression test ^[0-9a-fA-F]\x7b24\x7d$ from getInquiries (dedup key
construction). -/
def recLooksLikeLocalId (s : String) : Bool :=
  s.data.length = 24 && s.data.all isHexChar

/-- Modelled from the spec: mongoose.Types.ObjectId.isValid on a string
(library code, not part of this repository).  It accepts a string that is
24 hexadecimal characters, and also any string of length 12 (viewed as a
12-byte buffer). -/
def objectIdIsValid (s : String) : Bool :=
  (s.data.length = 24 && s.data.all isHexChar) || s.data.length = 12

/-- The Assignment Workflow's local-identifier test, as written in
assignInquiryToAgent (and the other byId handlers):
mongoose.Types.ObjectId.isValid(id) and id.length === 24. -/
def assignLooksLikeLocalId (s : String) : Bool :=
  objectIdIsValid s && s.data.length = 24

/-- Package details as far as the verified claims observe them: the package
name (gates inclusion of the whole object) and the three occupancy prices
that feed the Booking's packagePrice.  The remaining presentation fields
(duration, hotels, services, inclusion flags, currency) are carried by no
claim and are omitted from the embedding. -/
structure PackageInfo where
  packageName : Option String
  priceDouble : Option String
  priceTriple : Option String
  priceQuad : Option String
deriving DecidableEq, Repr

/-- An Inquiry Store document (MongoDB collection behind models/Inquiry.js).
mongoId is the document primary key _id as a string; externalId is the
optional identifier under which the record is known upstream.  The schema
file models/Inquiry.js is not part of src/; its claim-relevant defaults
(status starts as "pending", assignedAgent unset at creation) are modelled
from the spec where noted at the use sites. -/
structure Inquiry where
  mongoId : String
  externalId : Option String
  customerName : Option String
  customerEmail : Option String
  customerPhone : Option String
  message : Option String
  packageDetails : Option PackageInfo
  status : String
  assignedAgent : Option String
  createdAt : Nat
deriving DecidableEq, Repr

/-- A raw External Inquiry Record as the upstream HTTP response carries it:
field names vary by source shape, so every alias read by the normalizer in
fetchExternalInquiries is an optional field here.  Package-detail aliases
are omitted (no claim observes them, see PackageInfo). -/
structure RawExternal where
  id : Option String
  externalId : Option String
  inquiry_id : Option String
  name : Option String
  customerName : Option String
  customer_name : Option String
  customer : Option String
  email : Option String
  customerEmail : Option String
  customer_email : Option String
  phone : Option String
  customerPhone : Option String
  customer_phone : Option String
  contact : Option String
  message : Option String
  inquiry : Option String
  subject : Option String
  description : Option String
  status : Option String
  created_at : Option Nat
  createdAt : Option Nat
deriving DecidableEq, Repr

/-- The normalized view of an external inquiry produced by the mapping at
the end of fetchExternalInquiries (id and externalId are both set to the
extracted identifier; assignedAgent is forced to null). -/
structure ExtView where
  id : String
  externalId : String
  name : String
  email : String
  phone : String
  message : String
  status : String
  assignedAgent : Option String
  createdAt : Nat
deriving DecidableEq, Repr

/-- Normalization of one raw upstream record, following the map callback in
fetchExternalInquiries.  now stands for new Date() used when no creation
date is supplied. -/
def mapExternal (now : Nat) (r : RawExternal) : ExtView :=
  let externalId := jsSel r.id (jsSel r.externalId (jsSel r.inquiry_id ""))
  let customerName := jsSel r.name (jsSel r.customerName (jsSel r.customer_name (jsSel r.customer "")))
  let message := jsSel r.message (jsSel r.inquiry (jsSel r.subject (jsSel r.description "")))
  { id := externalId
    externalId := externalId
    name := customerName
    email := jsSel r.email (jsSel r.customerEmail (jsSel r.customer_email ""))
    phone := jsSel r.phone (jsSel r.customerPhone (jsSel r.customer_phone (jsSel r.contact "")))
    message := message
    status := jsSel r.status "pending"
    assignedAgent := none
    createdAt := (r.created_at).getD ((r.createdAt).getD now) }

/-- The upstream HTTP outcome seen by fetchExternalInquiries: a network or
timeout failure, a body in one of the four recognized envelope shapes, or a
body in none of them. -/
inductive UpstreamResponse where
  | failure
  | bareArray (l : List RawExternal)
  | dataField (l : List RawExternal)
  | inquiriesField (l : List RawExternal)
  | resultField (l : List RawExternal)
  | unrecognized
deriving DecidableEq, Repr

/-- fetchExternalInquiries: pick the first matching envelope shape, else the
empty list; a network failure is caught and also yields the empty list. -/
def fetchExternalInquiries (now : Nat) : UpstreamResponse → List ExtView
  | .failure => []
  | .bareArray l => l.map (mapExternal now)
  | .dataField l => l.map (mapExternal now)
  | .inquiriesField l => l.map (mapExternal now)
  | .resultField l => l.map (mapExternal now)
  | .unrecognized => []

/-- Caller roles resolved from the bearer JWT. -/
inductive Role where
  | admin
  | agent
deriving DecidableEq, Repr

/-- Sort relation used to model .sort(\x7bcreatedAt: -1\x7d): newest first. -/
def newestFirst (a b : Inquiry) : Prop :=
  b.createdAt ≤ a.createdAt

instance (a b : Inquiry) : Decidable (newestFirst a b) :=
  Nat.decLe b.createdAt a.createdAt

instance : IsTotal Inquiry newestFirst :=
  ⟨fun a b => Nat.le_total b.createdAt a.createdAt⟩

instance : IsTrans Inquiry newestFirst :=
  ⟨fun _ _ _ h1 h2 => Nat.le_trans h2 h1⟩

/-- The MongoDB filter of getInquiries: agents see exactly their own
assignments, admins see every record with a non-null assignedAgent. -/
def mongoFilter (role : Role) (callerId : String) (inq : Inquiry) : Bool :=
  match role with
  | .agent => decide (inq.assignedAgent = some callerId)
  | .admin => decide (inq.assignedAgent ≠ none)

/-- The Inquiry Store contribution to getInquiries: filter then sort newest
first. -/
def mongoInquiries (store : List Inquiry) (role : Role) (callerId : String) : List Inquiry :=
  List.insertionSort newestFirst (store.filter (mongoFilter role callerId))

/-- Dedup key set built by the admin branch of getInquiries over the
store contribution: each record donates its trimmed externalId when that
is defined and trims to a non-empty string, and donates its (trimmed)
primary identifier when that identifier is not 24 hex characters.  The
view id field checked by the code is the document _id rendered as a
string, since stored documents carry no separate id field. -/
def dedupKeys (l : List Inquiry) : List String :=
  l.flatMap (fun inq =>
    (match inq.externalId with
     | some e => if e = "" then [] else if jsTrim e = "" then [] else [jsTrim e]
     | none => []) ++
    (if inq.mongoId = "" then []
     else if recLooksLikeLocalId inq.mongoId then []
     else [jsTrim inq.mongoId]))

/-- The identifier under which an external view is deduplicated:
inq.externalId or inq.id in JS truthiness terms. -/
def extIdOf (m : ExtView) : String :=
  if m.externalId = "" then m.id else m.externalId

/-- The admin branch filter over external views: drop a record with no
usable identifier, and drop a record whose trimmed identifier is already a
dedup key of the store contribution. -/
def unassignedExternals (externals : List ExtView) (keys : List String) : List ExtView :=
  externals.filter (fun m =>
    if extIdOf m = "" then false
    else ! keys.contains (jsTrim (extIdOf m)))

/-- One entry of the reconciled list: either a normalized external record
or a stored inquiry. -/
inductive ListItem where
  | ext (m : ExtView)
  | stored (inq : Inquiry)
deriving DecidableEq, Repr

/-- Creation timestamp of a reconciled list entry. -/
def itemCreatedAt : ListItem → Nat
  | .ext m => m.createdAt
  | .stored inq => inq.createdAt

/-- getInquiries: agents get their own sorted store records only; admins
additionally fetch the external list and put the not-yet-stored external
records first.  The per-record population of assignedAgent into a
name/email object and the presentation defaults (subject, priority,
flat-package rebuild) do not alter which records appear nor their order
and are omitted.  Document-store reads are modelled as always available,
which is the only regime the verified claims speak about. -/
def getInquiries (store : List Inquiry) (resp : UpstreamResponse) (now : Nat)
    (role : Role) (callerId : String) : List ListItem :=
  let mongo := mongoInquiries store role callerId
  match role with
  | .agent => mongo.map ListItem.stored
  | .admin =>
      let externals := fetchExternalInquiries now resp
      (unassignedExternals externals (dedupKeys mongo)).map ListItem.ext
        ++ mongo.map ListItem.stored

/-- HTTP outcome of GET /inquiries (the upstream fetch failure is absorbed
inside fetchExternalInquiries, so this handler answers 200 with the list). -/
structure GetResp where
  status : Nat
  items : List ListItem
deriving DecidableEq, Repr

/-- The GET /inquiries endpoint. -/
def getInquiriesEndpoint (store : List Inquiry) (resp : UpstreamResponse) (now : Nat)
    (role : Role) (callerId : String) : GetResp :=
  { status := 200, items := getInquiries store resp now role callerId }

/-- A Booking document as built by the assignment side effect (the fields
the bookingData literal sets; the wider Booking schema keeps its other
fields unset here). -/
structure Booking where
  customerName : Option String
  customerEmail : Option String
  contactNumber : String
  package : String
  date : Nat
  status : String
  approvalStatus : String
  agent : String
  packagePrice : String
deriving DecidableEq, Repr

/-- The booking literal assembled from an inquiry during assignment. -/
def mkBooking (inq : Inquiry) (agentId : String) (now : Nat) : Booking :=
  { customerName := inq.customerName
    customerEmail := inq.customerEmail
    contactNumber := jsSel inq.customerPhone ""
    package := jsSel (inq.packageDetails.bind (fun p => p.packageName)) "Inquiry Package"
    date := now
    status := "pending"
    approvalStatus := "pending"
    agent := agentId
    packagePrice :=
      jsSel (inq.packageDetails.bind (fun p => p.priceDouble))
        (jsSel (inq.packageDetails.bind (fun p => p.priceTriple))
          (jsSel (inq.packageDetails.bind (fun p => p.priceQuad)) "0")) }

/-- Mongoose Inquiry.findById: first store document whose _id equals the
given string. -/
def findById (store : List Inquiry) (i : String) : Option Inquiry :=
  store.find? (fun inq => decide (inq.mongoId = i))

/-- Mongoose Inquiry.findOne on externalId. -/
def findByExternalId (store : List Inquiry) (x : String) : Option Inquiry :=
  store.find? (fun inq => decide (inq.externalId = some x))

/-- The shared target-location step of assignInquiryToAgent, updateInquiry,
getInquiryById, addResponse and deleteInquiry: when the route parameter
looks like a local identifier, look it up as _id first; whenever that
(or the shape test) misses, fall back to an externalId lookup. -/
def locateInquiry (store : List Inquiry) (pid : String) : Option Inquiry :=
  match (if assignLooksLikeLocalId pid then findById store pid else none) with
  | some inq => some inq
  | none => findByExternalId store pid

/-- The caller-supplied cached copy of the external record
(req.body.inquiryData), used to materialize a store record lazily. -/
structure FallbackData where
  externalId : Option String
  customerName : Option String
  customerEmail : Option String
  customerPhone : Option String
  message : Option String
  packageDetails : Option PackageInfo
deriving DecidableEq, Repr

/-- The store record persisted from fallback data when the assignment
target is found nowhere: externalId is inquiryData.externalId when truthy,
else the route parameter; status starts as "pending"; assignedAgent is not
set at this step. -/
def fallbackInquiry (d : FallbackData) (pid : String) (freshId : String) (now : Nat) : Inquiry :=
  { mongoId := freshId
    externalId := some (jsSel d.externalId pid)
    customerName := d.customerName
    customerEmail := d.customerEmail
    customerPhone := some (jsSel d.customerPhone "")
    message := some (jsSel d.message "")
    packageDetails := d.packageDetails
    status := "pending"
    assignedAgent := none
    createdAt := now }

/-- Persisting a modified document: the store entry with the same _id is
replaced (mongoose document save). -/
def saveReplace (store : List Inquiry) (inq : Inquiry) : List Inquiry :=
  store.map (fun x => if x.mongoId = inq.mongoId then inq else x)

/-- Request body and route parameter of PUT /inquiries/:id/assign. -/
structure AssignReq where
  role : Role
  paramsId : String
  assignedAgent : Option String
  createBooking : Option Bool
  inquiryData : Option FallbackData
deriving DecidableEq, Repr

/-- The collaborator state an assignment call runs against: the store, the
two identity collections (as sets of resolvable ids), the booking
collection, whether the Booking.create write succeeds, whether the
fallback inquiry save succeeds, the _id MongoDB would issue for a
fallback-created document, and the clock. -/
structure AssignEnv where
  store : List Inquiry
  userIds : List String
  agentIds : List String
  bookings : List Booking
  bookingWriteOk : Bool
  fallbackSaveOk : Bool
  freshId : String
  now : Nat
deriving DecidableEq, Repr

/-- Typed outcome of the assignment handler (403, 400 missing agent, 500 on
fallback save error, 404 needs-sync, 400 agent not found, 200). -/
inductive AssignOutcome where
  | forbidden
  | agentRequired
  | fallbackCreateFailed
  | notFoundNeedsSync
  | agentNotFound
  | assigned (result : Inquiry)
deriving DecidableEq, Repr

/-- Result of an assignment call: outcome plus the persisted collections. -/
structure AssignResult where
  outcome : AssignOutcome
  store : List Inquiry
  bookings : List Booking
deriving DecidableEq, Repr

/-- Step 1 of the assignment: when createBooking is not explicitly false,
attempt the Booking.create side effect; a successful creation appends the
booking and also sets the inquiry status to in-progress; a failure is
swallowed and leaves both untouched. -/
def bookingStep (inq : Inquiry) (bookings : List Booking) (bookingWriteOk : Bool)
    (agentId : String) (now : Nat) (createBooking : Option Bool) : Inquiry × List Booking :=
  if createBooking ≠ some false then
    if bookingWriteOk then
      ({ inq with status := "in-progress" }, bookings ++ [mkBooking inq agentId now])
    else (inq, bookings)
  else (inq, bookings)

/-- Step 2 of the assignment: set assignedAgent and advance a pending
status to in-progress, leaving any other status as step 1 left it. -/
def finalizeAssign (inq : Inquiry) (agentId : String) : Inquiry :=
  { inq with
    assignedAgent := some agentId
    status := if inq.status = "pending" then "in-progress" else inq.status }

/-- Tail of assignInquiryToAgent once the target inquiry is in hand
(store1 already holds the target, freshly inserted on the fallback path):
verify the agent id against both identity collections, run the booking
step, finalize and save. -/
def assignLocated (userIds agentIds : List String) (bookings : List Booking)
    (bookingWriteOk : Bool) (now : Nat) (store1 : List Inquiry) (inq : Inquiry)
    (agentId : String) (createBooking : Option Bool) : AssignResult :=
  if agentId ∈ userIds ∨ agentId ∈ agentIds then
    { outcome := .assigned
        (finalizeAssign (bookingStep inq bookings bookingWriteOk agentId now createBooking).1 agentId)
      store := saveReplace store1
        (finalizeAssign (bookingStep inq bookings bookingWriteOk agentId now createBooking).1 agentId)
      bookings := (bookingStep inq bookings bookingWriteOk agentId now createBooking).2 }
  else
    { outcome := .agentNotFound, store := store1, bookings := bookings }

/-- PUT /inquiries/:id/assign.  The transient in-memory population of
assignedAgent into a name/email object before reassignment is overwritten
by the assignment itself and never persisted, so it is not modelled; the
final response population likewise only affects presentation. -/
def assignInquiryToAgent (env : AssignEnv) (req : AssignReq) : AssignResult :=
  if req.role ≠ Role.admin then
    { outcome := .forbidden, store := env.store, bookings := env.bookings }
  else if jsSel req.assignedAgent "" = "" then
    { outcome := .agentRequired, store := env.store, bookings := env.bookings }
  else
    match locateInquiry env.store req.paramsId with
    | some inq =>
        assignLocated env.userIds env.agentIds env.bookings env.bookingWriteOk env.now
          env.store inq (jsSel req.assignedAgent "") req.createBooking
    | none =>
        match req.inquiryData with
        | some d =>
            if env.fallbackSaveOk then
              assignLocated env.userIds env.agentIds env.bookings env.bookingWriteOk env.now
                (env.store ++ [fallbackInquiry d req.paramsId env.freshId env.now])
                (fallbackInquiry d req.paramsId env.freshId env.now)
                (jsSel req.assignedAgent "") req.createBooking
            else
              { outcome := .fallbackCreateFailed, store := env.store, bookings := env.bookings }
        | none =>
            { outcome := .notFoundNeedsSync, store := env.store, bookings := env.bookings }

/-- Request body of the public POST /inquiries, with both the documented
and the legacy field names the handler destructures (package pricing
aliases beyond PackageInfo's scope omitted, see PackageInfo). -/
structure CreateReq where
  name : Option String
  email : Option String
  phone : Option String
  message : Option String
  customerName : Option String
  customerEmail : Option String
  customerPhone : Option String
  externalId : Option String
  id : Option String
  package_name : Option String
  packageName : Option String
  price_double : Option String
  price_triple : Option String
  price_quad : Option String
  package_details : Option PackageInfo
deriving DecidableEq, Repr

/-- Package details built by createInquiry when any package field is
supplied: top-level fields win over the nested package_details object. -/
def createPackageDetails (r : CreateReq) : Option PackageInfo :=
  if r.package_details = none ∧ jsSel r.package_name "" = "" ∧ jsSel r.packageName "" = "" then
    none
  else
    let pkg := (r.package_details).getD ⟨none, none, none, none⟩
    some
      { packageName := jsSelO r.packageName (jsSelO r.package_name pkg.packageName)
        priceDouble := jsSelO r.price_double pkg.priceDouble
        priceTriple := jsSelO r.price_triple pkg.priceTriple
        priceQuad := jsSelO r.price_quad pkg.priceQuad }

/-- The document persisted by POST /inquiries.  Modelled from the spec
where the schema (models/Inquiry.js, absent from src/) decides: status
defaults to "pending" (the spec lifecycle starts every inquiry at pending)
and assignedAgent, never passed by this handler, stays unset. -/
def createInquiryDoc (r : CreateReq) (freshId : String) (now : Nat) : Inquiry :=
  { mongoId := freshId
    externalId := jsSelO r.externalId (jsSelO r.id none)
    customerName := jsSelO r.customerName r.name
    customerEmail := jsSelO r.customerEmail r.email
    customerPhone := jsSelO r.customerPhone r.phone
    message := r.message
    packageDetails := createPackageDetails r
    status := "pending"
    assignedAgent := none
    createdAt := now }

/-- POST /inquiries: persist the new document (the best-effort webhook
forward has no effect on the store). -/
def createInquiry (store : List Inquiry) (r : CreateReq) (freshId : String) (now : Nat) :
    List Inquiry :=
  store ++ [createInquiryDoc r freshId now]

/-- Request of PUT /inquiries/:id (partial update).  assignedAgentField
distinguishes an absent body field (none) from a present one (some v,
where v itself models the JS value: none for null, some s for a string). -/
structure UpdateReq where
  role : Role
  callerId : String
  paramsId : String
  status : Option String
  assignedAgentField : Option (Option String)
deriving DecidableEq, Repr

/-- Typed outcome of the partial-update handler. -/
inductive UpdateOutcome where
  | notFound
  | forbidden
  | agentNotFound
  | ok (result : Inquiry)
deriving DecidableEq, Repr

/-- PUT /inquiries/:id: agents may set the status of their own assigned
inquiry to any supplied truthy value; admins may set status and may also
rewrite assignedAgent (verifying a truthy agent id against both identity
collections, a falsy one clearing the assignment). -/
def updateInquiry (store : List Inquiry) (userIds agentIds : List String)
    (req : UpdateReq) : UpdateOutcome × List Inquiry :=
  match locateInquiry store req.paramsId with
  | none => (.notFound, store)
  | some inq =>
      match req.role with
      | .agent =>
          if inq.assignedAgent ≠ some req.callerId then (.forbidden, store)
          else
            let inq1 := if jsSel req.status "" = "" then inq
              else { inq with status := jsSel req.status "" }
            (.ok inq1, saveReplace store inq1)
      | .admin =>
          let inq1 := if jsSel req.status "" = "" then inq
            else { inq with status := jsSel req.status "" }
          match req.assignedAgentField with
          | none => (.ok inq1, saveReplace store inq1)
          | some v =>
              if jsSel v "" = "" then
                let inq2 := { inq1 with assignedAgent := none }
                (.ok inq2, saveReplace store inq2)
              else if jsSel v "" ∈ userIds ∨ jsSel v "" ∈ agentIds then
                let inq2 := { inq1 with assignedAgent := some (jsSel v "") }
                (.ok inq2, saveReplace store inq2)
              else (.agentNotFound, store)

/-- A well-formed local document identifier (24 hex characters), used by
the concrete instances below. -/
def hexId : String := "aaaaaaaaaaaaaaaaaaaaaaaa"

/-- A baseline store document for building concrete instances. -/
def baseInquiry : Inquiry :=
  { mongoId := hexId
    externalId := none
    customerName := some "Ali"
    customerEmail := some "a@x.com"
    customerPhone := none
    message := some "hi"
    packageDetails := none
    status := "pending"
    assignedAgent := none
    createdAt := 5 }

/-- A baseline raw external record carrying identifier ext-1. -/
def rawExt1 : RawExternal :=
  { id := some "ext-1"
    externalId := none
    inquiry_id := none
    name := some "Ali"
    customerName := none
    customer_name := none
    customer := none
    email := some "a@x.com"
    customerEmail := none
    customer_email := none
    phone := none
    customerPhone := none
    customer_phone := none
    contact := none
    message := some "hi"
    inquiry := none
    subject := none
    description := none
    status := none
    created_at := none
    createdAt := none }

/-- A store record carrying externalId ext-1 that has never been assigned
(reachable through the public POST /inquiries handler). -/
def inqUnassignedExt1 : Inquiry :=
  { baseInquiry with externalId := some "ext-1" }

/-- A store record carrying externalId ext-1 that is assigned. -/
def inqAssignedExt1 : Inquiry :=
  { baseInquiry with externalId := some "ext-1", assignedAgent := some "A1" }

/-- A store record already in a terminal status and already assigned. -/
def inqCompleted : Inquiry :=
  { baseInquiry with status := "completed", assignedAgent := some "A1" }

/-- Assignment environment holding only inqCompleted, with agent A1
resolvable and the Booking write succeeding. -/
def envCompleted : AssignEnv :=
  { store := [inqCompleted], userIds := ["A1"], agentIds := [], bookings := []
    bookingWriteOk := true, fallbackSaveOk := true, freshId := "f1", now := 9 }

/-- Reassignment request for the completed inquiry (createBooking left to
its default). -/
def reqCompleted : AssignReq :=
  { role := .admin, paramsId := hexId, assignedAgent := some "A1"
    createBooking := none, inquiryData := none }

/-- Same environment as envCompleted but with the Booking write failing. -/
def envBookingFails : AssignEnv :=
  { envCompleted with bookingWriteOk := false }

/-- Fallback data whose own externalId differs from the route parameter. -/
def fbOther : FallbackData :=
  { externalId := some "other", customerName := some "Ali"
    customerEmail := some "a@x.com", customerPhone := none, message := none
    packageDetails := none }

/-- Environment with an empty store for the fallback-materialization
calls. -/
def envEmptyStore : AssignEnv :=
  { store := [], userIds := ["A1"], agentIds := [], bookings := []
    bookingWriteOk := true, fallbackSaveOk := true
    freshId := "bbbbbbbbbbbbbbbbbbbbbbbb", now := 9 }

/-- Assignment of the missing identifier ext-9 carrying fbOther as cached
data (no booking requested). -/
def reqFallbackOther : AssignReq :=
  { role := .admin, paramsId := "ext-9", assignedAgent := some "A1"
    createBooking := some false, inquiryData := some fbOther }

/-- Assignment of the missing identifier ext-2 with no cached data. -/
def reqNeedsSync : AssignReq :=
  { role := .admin, paramsId := "ext-2", assignedAgent := some "A1"
    createBooking := none, inquiryData := none }

/-- Fallback data for the non-atomicity witness. -/
def fbGhost : FallbackData :=
  { externalId := none, customerName := some "Bea"
    customerEmail := some "b@x.com", customerPhone := none, message := none
    packageDetails := none }

/-- Assignment of the missing identifier ext-3 to an unresolvable agent,
carrying fbGhost as cached data. -/
def reqGhostAgent : AssignReq :=
  { role := .admin, paramsId := "ext-3", assignedAgent := some "ghost"
    createBooking := none, inquiryData := some fbGhost }

/-- A store record assigned to A1 and in progress. -/
def inqInProgress : Inquiry :=
  { baseInquiry with status := "in-progress", assignedAgent := some "A1" }

/-- Agent A1's own status update pushing the inquiry back to pending. -/
def updBackToPending : UpdateReq :=
  { role := .agent, callerId := "A1", paramsId := hexId
    status := some "pending", assignedAgentField := none }

/-- Agent A1's own status update to a terminal label. -/
def updToClosed : UpdateReq :=
  { role := .agent, callerId := "A1", paramsId := hexId
    status := some "closed", assignedAgentField := none }

/-- A public POST /inquiries body carrying an external identifier. -/
def createBody : CreateReq :=
  { name := some "Ali", email := some "a@x.com", phone := none
    message := some "hi", customerName := none, customerEmail := none
    customerPhone := none, externalId := some "ext-1", id := none
    package_name := none, packageName := none, price_double := none
    price_triple := none, price_quad := none, package_details := none }

theorem dropWhile_idem (p : α → Bool) (l : List α) :
    (l.dropWhile p).dropWhile p = l.dropWhile p := by
  induction l with
  | nil => rfl
  | cons a l ih =>
      by_cases h : p a = true
      · simpa [List.dropWhile_cons, h] using ih
      · simp [List.dropWhile_cons, h]

theorem dropWhile_append_last (p : α → Bool) (l : List α) (a : α) (h : p a = false) :
    (l ++ [a]).dropWhile p = l.dropWhile p ++ [a] := by
  induction l with
  | nil => simp [List.dropWhile_cons, h]
  | cons b l ih =>
      by_cases hb : p b = true
      · simpa [List.dropWhile_cons, hb] using ih
      · simp [List.dropWhile_cons, hb]

theorem length_dropWhile_le (p : α → Bool) (l : List α) :
    (l.dropWhile p).length ≤ l.length := by
  induction l with
  | nil => simp
  | cons b l ih =>
      rw [List.dropWhile_cons]
      split
      · exact Nat.le_trans ih (Nat.le_succ _)
      · simp

theorem head_not_of_dropWhile_self (p : α → Bool) (a : α) (l : List α)
    (h : (a :: l).dropWhile p = a :: l) : p a = false := by
  by_cases ha : p a = true
  · rw [List.dropWhile_cons, if_pos ha] at h
    have hlen := length_dropWhile_le p l
    rw [h] at hlen
    simp at hlen
  · simpa using ha

theorem dropWhile_trimRight (p : α → Bool) (m : List α) (hm : m.dropWhile p = m) :
    ((m.reverse.dropWhile p).reverse).dropWhile p = (m.reverse.dropWhile p).reverse := by
  cases m with
  | nil => rfl
  | cons a m' =>
      have ha : p a = false := head_not_of_dropWhile_self p a m' hm
      have hrw : (a :: m').reverse.dropWhile p = (m'.reverse.dropWhile p) ++ [a] := by
        rw [List.reverse_cons, dropWhile_append_last p _ a ha]
      rw [hrw, List.reverse_append, List.reverse_singleton]
      simp only [List.singleton_append, List.dropWhile_cons, ha]
      simp

theorem trimChars_idem (l : List Char) : trimChars (trimChars l) = trimChars l := by
  unfold trimChars
  rw [dropWhile_trimRight isJsWhitespace (l.dropWhile isJsWhitespace)
        (dropWhile_idem isJsWhitespace l)]
  rw [List.reverse_reverse, dropWhile_idem]

theorem jsTrim_idem (s : String) : jsTrim (jsTrim s) = jsTrim s := by
  show String.mk (trimChars (trimChars s.data)) = String.mk (trimChars s.data)
  rw [trimChars_idem]

theorem bookingStep_mongoId (inq : Inquiry) (bks : List Booking) (ok : Bool)
    (agentId : String) (now : Nat) (cb : Option Bool) :
    (bookingStep inq bks ok agentId now cb).1.mongoId = inq.mongoId := by
  unfold bookingStep
  split
  · split <;> rfl
  · rfl

theorem bookingStep_status (inq : Inquiry) (bks : List Booking) (ok : Bool)
    (agentId : String) (now : Nat) (cb : Option Bool) :
    (bookingStep inq bks ok agentId now cb).1.status =
      if cb ≠ some false ∧ ok = true then "in-progress" else inq.status := by
  unfold bookingStep
  by_cases h1 : cb = some false
  · simp [h1]
  · by_cases h2 : ok = true
    · simp [h1, h2]
    · simp [h1, h2]

theorem bookingStep_bookings_of_fail (inq : Inquiry) (bks : List Booking)
    (agentId : String) (now : Nat) (cb : Option Bool) :
    (bookingStep inq bks false agentId now cb).2 = bks := by
  unfold bookingStep
  split <;> rfl

theorem finalizeAssign_mongoId (inq : Inquiry) (agentId : String) :
    (finalizeAssign inq agentId).mongoId = inq.mongoId := rfl

theorem finalizeAssign_agent (inq : Inquiry) (agentId : String) :
    (finalizeAssign inq agentId).assignedAgent = some agentId := rfl

theorem finalizeAssign_status_ne_pending (inq : Inquiry) (agentId : String) :
    (finalizeAssign inq agentId).status ≠ "pending" := by
  show (if inq.status = "pending" then "in-progress" else inq.status) ≠ "pending"
  by_cases h : inq.status = "pending"
  · rw [if_pos h]; decide
  · rw [if_neg h]; exact h

theorem assignLocated_resolved (u a : List String) (bks : List Booking) (ok : Bool)
    (now : Nat) (st : List Inquiry) (inq : Inquiry) (agentId : String) (cb : Option Bool)
    (h : agentId ∈ u ∨ agentId ∈ a) :
    assignLocated u a bks ok now st inq agentId cb =
      { outcome := .assigned (finalizeAssign (bookingStep inq bks ok agentId now cb).1 agentId)
        store := saveReplace st (finalizeAssign (bookingStep inq bks ok agentId now cb).1 agentId)
        bookings := (bookingStep inq bks ok agentId now cb).2 } := by
  unfold assignLocated
  rw [if_pos h]

theorem assignLocated_unresolved (u a : List String) (bks : List Booking) (ok : Bool)
    (now : Nat) (st : List Inquiry) (inq : Inquiry) (agentId : String) (cb : Option Bool)
    (h : ¬(agentId ∈ u ∨ agentId ∈ a)) :
    assignLocated u a bks ok now st inq agentId cb =
      { outcome := .agentNotFound, store := st, bookings := bks } := by
  unfold assignLocated
  rw [if_neg h]

theorem assign_located_eq (env : AssignEnv) (req : AssignReq) (inq : Inquiry)
    (hrole : req.role = Role.admin) (hagent : jsSel req.assignedAgent "" ≠ "")
    (hloc : locateInquiry env.store req.paramsId = some inq) :
    assignInquiryToAgent env req =
      assignLocated env.userIds env.agentIds env.bookings env.bookingWriteOk env.now
        env.store inq (jsSel req.assignedAgent "") req.createBooking := by
  unfold assignInquiryToAgent
  simp [hrole, hagent, hloc]

theorem assign_fallback_eq (env : AssignEnv) (req : AssignReq) (d : FallbackData)
    (hrole : req.role = Role.admin) (hagent : jsSel req.assignedAgent "" ≠ "")
    (hloc : locateInquiry env.store req.paramsId = none)
    (hdata : req.inquiryData = some d) (hsave : env.fallbackSaveOk = true) :
    assignInquiryToAgent env req =
      assignLocated env.userIds env.agentIds env.bookings env.bookingWriteOk env.now
        (env.store ++ [fallbackInquiry d req.paramsId env.freshId env.now])
        (fallbackInquiry d req.paramsId env.freshId env.now)
        (jsSel req.assignedAgent "") req.createBooking := by
  unfold assignInquiryToAgent
  simp [hrole, hagent, hloc, hdata, hsave]

theorem assign_needs_sync_eq (env : AssignEnv) (req : AssignReq)
    (hrole : req.role = Role.admin) (hagent : jsSel req.assignedAgent "" ≠ "")
    (hloc : locateInquiry env.store req.paramsId = none)
    (hdata : req.inquiryData = none) :
    assignInquiryToAgent env req =
      { outcome := .notFoundNeedsSync, store := env.store, bookings := env.bookings } := by
  unfold assignInquiryToAgent
  simp [hrole, hagent, hloc, hdata]

theorem locate_mem (store : List Inquiry) (pid : String) (inq : Inquiry)
    (h : locateInquiry store pid = some inq) : inq ∈ store := by
  unfold locateInquiry at h
  cases hfi : (if assignLooksLikeLocalId pid then findById store pid else none) with
  | some j =>
      rw [hfi] at h
      simp only [] at h
      obtain rfl : j = inq := by injection h
      by_cases hl : assignLooksLikeLocalId pid = true
      · rw [if_pos hl] at hfi
        exact List.mem_of_find?_eq_some hfi
      · rw [if_neg hl] at hfi
        cases hfi
  | none =>
      rw [hfi] at h
      exact List.mem_of_find?_eq_some h

theorem assignLocated_assigned_inv (u a : List String) (bks : List Booking) (ok : Bool)
    (now : Nat) (st : List Inquiry) (inq : Inquiry) (agentId : String) (cb : Option Bool)
    (fin : Inquiry)
    (h : (assignLocated u a bks ok now st inq agentId cb).outcome = .assigned fin) :
    fin = finalizeAssign (bookingStep inq bks ok agentId now cb).1 agentId := by
  unfold assignLocated at h
  by_cases hres : agentId ∈ u ∨ agentId ∈ a
  · rw [if_pos hres] at h
    injection h with h
    exact h.symm
  · rw [if_neg hres] at h
    exact AssignOutcome.noConfusion h

theorem assign_assigned_inv (env : AssignEnv) (req : AssignReq) (fin : Inquiry)
    (h : (assignInquiryToAgent env req).outcome = .assigned fin) :
    ∃ inq1, fin = finalizeAssign inq1 (jsSel req.assignedAgent "") := by
  unfold assignInquiryToAgent at h
  by_cases h1 : req.role ≠ Role.admin
  · rw [if_pos h1] at h
    exact AssignOutcome.noConfusion h
  · rw [if_neg h1] at h
    by_cases h2 : jsSel req.assignedAgent "" = ""
    · rw [if_pos h2] at h
      exact AssignOutcome.noConfusion h
    · rw [if_neg h2] at h
      cases hloc : locateInquiry env.store req.paramsId with
      | some inq =>
          rw [hloc] at h
          exact ⟨_, assignLocated_assigned_inv _ _ _ _ _ _ _ _ _ _ h⟩
      | none =>
          rw [hloc] at h
          cases hdata : req.inquiryData with
          | some d =>
              rw [hdata] at h
              dsimp only [] at h
              by_cases hsave : env.fallbackSaveOk = true
              · rw [if_pos hsave] at h
                exact ⟨_, assignLocated_assigned_inv _ _ _ _ _ _ _ _ _ _ h⟩
              · rw [if_neg hsave] at h
                exact AssignOutcome.noConfusion h
          | none =>
              rw [hdata] at h
              exact AssignOutcome.noConfusion h

/-- C9: the Reconciliation Engine's dedup-key identifier test (regular
expression match against 24 hex characters) and the Assignment Workflow's
lookup-order test (mongoose ObjectId validity plus length exactly 24)
agree on every string, and both hold exactly when the string is 24
characters drawn from the hexadecimal alphabet. -/
theorem classifiers_agree (s : String) :
    recLooksLikeLocalId s = assignLooksLikeLocalId s ∧
    (assignLooksLikeLocalId s = true ↔
      s.data.length = 24 ∧ s.data.all isHexChar = true) := by
  have hlen : s.data.length = s.length := rfl
  constructor
  · unfold recLooksLikeLocalId assignLooksLikeLocalId objectIdIsValid
    by_cases h24 : s.length = 24
    · have h12 : ¬ s.length = 12 := by omega
      simp [hlen, h24, h12]
    · simp [hlen, h24]
  · unfold assignLooksLikeLocalId objectIdIsValid
    by_cases h24 : s.length = 24
    · have h12 : ¬ s.length = 12 := by omega
      simp [hlen, h24, h12]
    · simp [hlen, h24]

/-- Witness for C9 at the concrete 24-hex identifier. -/
theorem classifiers_agree_witness :
    recLooksLikeLocalId hexId = assignLooksLikeLocalId hexId ∧
    (assignLooksLikeLocalId hexId = true ↔
      hexId.data.length = 24 ∧ hexId.data.all isHexChar = true) :=
  classifiers_agree hexId

/-- C3: for an agent caller, GET /inquiries returns exactly the store
records assigned to that agent (a permutation of the filtered store, so
never fewer and never another agent's record), ordered newest first, with
no external contribution. -/
theorem agent_list_exact (store : List Inquiry) (resp : UpstreamResponse) (now : Nat)
    (A : String) :
    (∀ inq, ListItem.stored inq ∈ getInquiries store resp now .agent A ↔
      inq ∈ store ∧ inq.assignedAgent = some A) ∧
    (∀ m, ListItem.ext m ∉ getInquiries store resp now .agent A) ∧
    List.Pairwise (fun a b => itemCreatedAt b ≤ itemCreatedAt a)
      (getInquiries store resp now .agent A) ∧
    List.Perm (getInquiries store resp now .agent A)
      ((store.filter (mongoFilter .agent A)).map ListItem.stored) := by
  have hg : getInquiries store resp now .agent A
      = (mongoInquiries store .agent A).map ListItem.stored := rfl
  refine ⟨?_, ?_, ?_, ?_⟩
  · intro inq
    rw [hg]
    simp [List.mem_map, mongoInquiries, List.mem_insertionSort, List.mem_filter, mongoFilter]
  · intro m
    rw [hg]
    simp [List.mem_map]
  · rw [hg, List.pairwise_map]
    exact List.sorted_insertionSort newestFirst _
  · rw [hg]
    exact (List.perm_insertionSort newestFirst _).map ListItem.stored

/-- Witness for C3 at a concrete one-record store: the agent list is a
permutation of the filtered store. -/
theorem agent_list_exact_witness :
    List.Perm (getInquiries [inqAssignedExt1] .unrecognized 0 .agent "A1")
      (([inqAssignedExt1].filter (mongoFilter .agent "A1")).map ListItem.stored) :=
  (agent_list_exact [inqAssignedExt1] .unrecognized 0 "A1").2.2.2

/-- C8: when the External Inquiry Source fetch fails on the network or the
response matches none of the recognized envelope shapes, the external
contribution is the empty list and the admin GET /inquiries request still
answers 200 with the local-store-only view. -/
theorem upstream_failure_degrades (store : List Inquiry) (resp : UpstreamResponse)
    (now : Nat) (callerId : String)
    (h : resp = UpstreamResponse.failure ∨ resp = UpstreamResponse.unrecognized) :
    fetchExternalInquiries now resp = [] ∧
    getInquiriesEndpoint store resp now .admin callerId =
      { status := 200,
        items := (mongoInquiries store .admin callerId).map ListItem.stored } := by
  have hf : fetchExternalInquiries now resp = [] := by
    rcases h with h | h <;> rw [h] <;> rfl
  refine ⟨hf, ?_⟩
  simp [getInquiriesEndpoint, getInquiries, hf, unassignedExternals]

/-- Witness for C8 at a concrete failing fetch over the empty store. -/
theorem upstream_failure_degrades_witness :
    fetchExternalInquiries 0 UpstreamResponse.failure = [] ∧
    getInquiriesEndpoint [] UpstreamResponse.failure 0 .admin "c" =
      { status := 200, items := (mongoInquiries [] .admin "c").map ListItem.stored } :=
  upstream_failure_degrades [] .failure 0 "c" (Or.inl rfl)

/-- C1 (amended): an external record whose identifier equals a dedup key
donated by a stored inquiry with a non-null assignedAgent — its trimmed
non-empty externalId, or its primary identifier when that is not 24 hex
characters — is excluded from the admin merged list; and an external
record carrying no usable identifier is always dropped. -/
theorem admin_merge_dedup (store : List Inquiry) (resp : UpstreamResponse)
    (now : Nat) (callerId : String) (m : ExtView) :
    ((∃ inq, inq ∈ store ∧ inq.assignedAgent ≠ none ∧
        ((inq.externalId.getD "" ≠ "" ∧ jsTrim (inq.externalId.getD "") ≠ "" ∧
            extIdOf m = jsTrim (inq.externalId.getD "")) ∨
         (inq.mongoId ≠ "" ∧ recLooksLikeLocalId inq.mongoId = false ∧
            extIdOf m = inq.mongoId))) →
      ListItem.ext m ∉ getInquiries store resp now .admin callerId) ∧
    (extIdOf m = "" → ListItem.ext m ∉ getInquiries store resp now .admin callerId) := by
  have hmem : ∀ x : ExtView,
      ListItem.ext x ∈ getInquiries store resp now .admin callerId ↔
        x ∈ unassignedExternals (fetchExternalInquiries now resp)
              (dedupKeys (mongoInquiries store .admin callerId)) := by
    intro x
    show ListItem.ext x ∈ _ ++ _ ↔ _
    simp [List.mem_append, List.mem_map]
  constructor
  · rintro ⟨inq, hin, hassigned, hcase⟩
    have hmongo : inq ∈ mongoInquiries store .admin callerId := by
      refine (List.mem_insertionSort newestFirst).mpr (List.mem_filter.mpr ⟨hin, ?_⟩)
      simp [mongoFilter, hassigned]
    have hkey : jsTrim (extIdOf m) ∈ dedupKeys (mongoInquiries store .admin callerId) := by
      refine List.mem_flatMap.mpr ⟨inq, hmongo, ?_⟩
      rcases hcase with ⟨hne, htne, hx⟩ | ⟨hid, hrec, hx⟩
      · cases hext : inq.externalId with
        | none => simp [hext] at hne
        | some e =>
            rw [hext] at htne hx
            simp only [Option.getD_some] at htne hx
            have hene : e ≠ "" := by
              intro he
              exact htne (by rw [he]; rfl)
            have hxx : jsTrim (extIdOf m) = jsTrim e := by rw [hx, jsTrim_idem]
            refine List.mem_append.mpr (Or.inl ?_)
            simp [hene, htne, hxx]
      · have hxx : jsTrim (extIdOf m) = jsTrim inq.mongoId := by rw [hx]
        refine List.mem_append.mpr (Or.inr ?_)
        rw [hxx]
        simp [hid, hrec]
    intro hm
    have hfil := (List.mem_filter.mp ((hmem m).mp hm)).2
    by_cases he : extIdOf m = ""
    · simp [he] at hfil
    · simp [he] at hfil
      exact hfil hkey
  · intro he hm
    have hfil := (List.mem_filter.mp ((hmem m).mp hm)).2
    simp [he] at hfil

/-- Witness for C1: the assigned store record with externalId ext-1
suppresses the external record with the same identifier. -/
theorem admin_merge_dedup_witness :
    ListItem.ext (mapExternal 7 rawExt1) ∉
      getInquiries [inqAssignedExt1] (.bareArray [rawExt1]) 7 .admin "c" :=
  (admin_merge_dedup [inqAssignedExt1] (.bareArray [rawExt1]) 7 "c"
      (mapExternal 7 rawExt1)).1
    ⟨inqAssignedExt1, by decide, by decide, Or.inl (by decide)⟩

/-- Counterexample to C1 as stated: the store record inqUnassignedExt1 has
externalId ext-1 (non-empty, trimmed) equal to the external record's
identifier, yet — because the dedup key set is built only from store
records with a non-null assignedAgent — that external record still appears
in the admin merged list. -/
theorem admin_merge_dedup_cex :
    inqUnassignedExt1.externalId = some "ext-1" ∧
    jsTrim "ext-1" = "ext-1" ∧
    extIdOf (mapExternal 7 rawExt1) = "ext-1" ∧
    ListItem.ext (mapExternal 7 rawExt1) ∈
      getInquiries [inqUnassignedExt1] (.bareArray [rawExt1]) 7 .admin "c" := by
  refine ⟨rfl, by decide, by decide, by decide⟩

/-- Equation for the status written by the finalize step. -/
theorem finalizeAssign_status (inq : Inquiry) (agentId : String) :
    (finalizeAssign inq agentId).status =
      if inq.status = "pending" then "in-progress" else inq.status := rfl

/-- C2 (amended): the assignment workflow resolves its target in order:
local-id lookup when the identifier is local-shaped; externalId lookup
when that misses or the shape test fails; fallback materialization (a new
record with status "pending" whose externalId is the fallback data's own
non-empty externalId when present, otherwise the given identifier), on
which the assignment then proceeds; and a needs-sync not-found failure,
never a silent success, when no fallback data is supplied. -/
theorem assign_resolution_order (env : AssignEnv) (req : AssignReq)
    (hrole : req.role = Role.admin) (hagent : jsSel req.assignedAgent "" ≠ "") :
    (∀ inq, assignLooksLikeLocalId req.paramsId = true →
      findById env.store req.paramsId = some inq →
      locateInquiry env.store req.paramsId = some inq) ∧
    ((assignLooksLikeLocalId req.paramsId = false ∨ findById env.store req.paramsId = none) →
      locateInquiry env.store req.paramsId = findByExternalId env.store req.paramsId) ∧
    (∀ d, locateInquiry env.store req.paramsId = none → req.inquiryData = some d →
      env.fallbackSaveOk = true →
      (fallbackInquiry d req.paramsId env.freshId env.now).status = "pending" ∧
      (fallbackInquiry d req.paramsId env.freshId env.now).externalId
        = some (jsSel d.externalId req.paramsId) ∧
      assignInquiryToAgent env req =
        assignLocated env.userIds env.agentIds env.bookings env.bookingWriteOk env.now
          (env.store ++ [fallbackInquiry d req.paramsId env.freshId env.now])
          (fallbackInquiry d req.paramsId env.freshId env.now)
          (jsSel req.assignedAgent "") req.createBooking) ∧
    (locateInquiry env.store req.paramsId = none → req.inquiryData = none →
      assignInquiryToAgent env req =
        { outcome := .notFoundNeedsSync, store := env.store, bookings := env.bookings }) := by
  refine ⟨?_, ?_, ?_, ?_⟩
  · intro inq hl hf
    simp [locateInquiry, hl, hf]
  · rintro (hl | hf)
    · simp [locateInquiry, hl]
    · unfold locateInquiry
      cases hl : assignLooksLikeLocalId req.paramsId
      · simp
      · simp [hf]
  · intro d hloc hdata hsave
    exact ⟨rfl, rfl, assign_fallback_eq env req d hrole hagent hloc hdata hsave⟩
  · intro hloc hdata
    exact assign_needs_sync_eq env req hrole hagent hloc hdata

/-- Witness for C2: the missing identifier with no fallback data yields the
needs-sync failure on a concrete environment. -/
theorem assign_resolution_order_witness :
    assignInquiryToAgent envEmptyStore reqNeedsSync =
      { outcome := .notFoundNeedsSync, store := envEmptyStore.store
        bookings := envEmptyStore.bookings } :=
  (assign_resolution_order envEmptyStore reqNeedsSync rfl (by decide)).2.2.2
    (by decide) rfl

/-- Counterexample to C2 as stated: assigning the missing identifier ext-9
with fallback data whose own externalId is "other" persists the new record
under externalId "other", not under the given identifier ext-9. -/
theorem assign_resolution_order_cex :
    reqFallbackOther.paramsId = "ext-9" ∧
    fbOther.externalId = some "other" ∧
    (assignInquiryToAgent envEmptyStore reqFallbackOther).store.map
        (fun i => i.externalId) = [some "other"] ∧
    (∀ i ∈ (assignInquiryToAgent envEmptyStore reqFallbackOther).store,
      i.externalId ≠ some "ext-9") := by
  refine ⟨rfl, rfl, by decide, by decide⟩

/-- C4 (amended): a successful assignment sets assignedAgent to the given
agent; the status becomes in-progress whenever a booking was attempted and
its creation succeeded (regardless of the prior status), and otherwise
advances to in-progress exactly when the prior status was pending. -/
theorem assign_status_transition (env : AssignEnv) (req : AssignReq) (inq : Inquiry)
    (hrole : req.role = Role.admin) (hagent : jsSel req.assignedAgent "" ≠ "")
    (hres : jsSel req.assignedAgent "" ∈ env.userIds ∨ jsSel req.assignedAgent "" ∈ env.agentIds)
    (hloc : locateInquiry env.store req.paramsId = some inq) :
    ∃ fin, (assignInquiryToAgent env req).outcome = .assigned fin ∧
      fin.assignedAgent = some (jsSel req.assignedAgent "") ∧
      fin.mongoId = inq.mongoId ∧
      fin.status = (if req.createBooking ≠ some false ∧ env.bookingWriteOk = true
          then "in-progress"
          else if inq.status = "pending" then "in-progress" else inq.status) := by
  rw [assign_located_eq env req inq hrole hagent hloc,
    assignLocated_resolved _ _ _ _ _ _ _ _ _ hres]
  refine ⟨_, rfl, finalizeAssign_agent _ _, ?_, ?_⟩
  · rw [finalizeAssign_mongoId, bookingStep_mongoId]
  · rw [finalizeAssign_status, bookingStep_status]
    by_cases hb : req.createBooking ≠ some false ∧ env.bookingWriteOk = true
    · simp only [if_pos hb]
      simp
    · simp only [if_neg hb]

/-- Witness for C4 at the concrete completed inquiry. -/
theorem assign_status_transition_witness :
    ∃ fin, (assignInquiryToAgent envCompleted reqCompleted).outcome = .assigned fin ∧
      fin.assignedAgent = some (jsSel reqCompleted.assignedAgent "") ∧
      fin.mongoId = inqCompleted.mongoId ∧
      fin.status = (if reqCompleted.createBooking ≠ some false ∧
            envCompleted.bookingWriteOk = true
          then "in-progress"
          else if inqCompleted.status = "pending" then "in-progress"
          else inqCompleted.status) :=
  assign_status_transition envCompleted reqCompleted inqCompleted rfl (by decide)
    (by decide) (by decide)

/-- Counterexample to C4 as stated: reassigning the completed inquiry with
a successful booking creation rewrites its terminal status to in-progress
instead of leaving it unchanged. -/
theorem assign_status_transition_cex :
    inqCompleted.status = "completed" ∧
    envCompleted.store = [inqCompleted] ∧
    (assignInquiryToAgent envCompleted reqCompleted).store.map (fun i => i.status)
      = ["in-progress"] := by
  refine ⟨rfl, rfl, by decide⟩

/-- C5: a Booking-creation failure never aborts the assignment: the call
still reports success, the inquiry still has assignedAgent set and is
persisted, and the booking collection is exactly as before. -/
theorem booking_failure_nonaborting (env : AssignEnv) (req : AssignReq) (inq : Inquiry)
    (hrole : req.role = Role.admin) (hagent : jsSel req.assignedAgent "" ≠ "")
    (hres : jsSel req.assignedAgent "" ∈ env.userIds ∨ jsSel req.assignedAgent "" ∈ env.agentIds)
    (hloc : locateInquiry env.store req.paramsId = some inq)
    (hcb : req.createBooking ≠ some false)
    (hfail : env.bookingWriteOk = false) :
    ∃ fin, (assignInquiryToAgent env req).outcome = .assigned fin ∧
      fin.assignedAgent = some (jsSel req.assignedAgent "") ∧
      fin ∈ (assignInquiryToAgent env req).store ∧
      (assignInquiryToAgent env req).bookings = env.bookings := by
  rw [assign_located_eq env req inq hrole hagent hloc,
    assignLocated_resolved _ _ _ _ _ _ _ _ _ hres]
  refine ⟨_, rfl, finalizeAssign_agent _ _, ?_, ?_⟩
  · unfold saveReplace
    refine List.mem_map.mpr ⟨inq, locate_mem _ _ _ hloc, ?_⟩
    have hid : inq.mongoId =
        (finalizeAssign (bookingStep inq env.bookings env.bookingWriteOk
          (jsSel req.assignedAgent "") env.now req.createBooking).1
          (jsSel req.assignedAgent "")).mongoId := by
      rw [finalizeAssign_mongoId, bookingStep_mongoId]
    rw [if_pos hid]
  · rw [hfail]
    exact bookingStep_bookings_of_fail _ _ _ _ _

/-- Witness for C5 at the concrete environment with a failing Booking
write. -/
theorem booking_failure_nonaborting_witness :
    ∃ fin, (assignInquiryToAgent envBookingFails reqCompleted).outcome = .assigned fin ∧
      fin.assignedAgent = some (jsSel reqCompleted.assignedAgent "") ∧
      fin ∈ (assignInquiryToAgent envBookingFails reqCompleted).store ∧
      (assignInquiryToAgent envBookingFails reqCompleted).bookings =
        envBookingFails.bookings :=
  booking_failure_nonaborting envBookingFails reqCompleted inqCompleted rfl
    (by decide) (by decide) (by decide) (by decide) rfl

/-- C7 (amended): the assignment operation never leaves an inquiry in
status "pending"; but the partial-update handler sets the status of a
located, owned inquiry to whatever truthy value the agent supplies —
including "pending" — so a return to pending is possible through it. -/
theorem pending_reachability :
    (∀ (env : AssignEnv) (req : AssignReq) (fin : Inquiry),
      (assignInquiryToAgent env req).outcome = .assigned fin →
      fin.status ≠ "pending") ∧
    (∀ (store : List Inquiry) (u a : List String) (req : UpdateReq) (inq : Inquiry),
      locateInquiry store req.paramsId = some inq → req.role = Role.agent →
      inq.assignedAgent = some req.callerId → jsSel req.status "" ≠ "" →
      (updateInquiry store u a req).1 = .ok { inq with status := jsSel req.status "" }) := by
  constructor
  · intro env req fin h
    obtain ⟨inq1, rfl⟩ := assign_assigned_inv env req fin h
    exact finalizeAssign_status_ne_pending _ _
  · intro store u a req inq hloc hrole hown hst
    simp [updateInquiry, hloc, hrole, hown, hst]

/-- Witness for C7: the assignment of the completed inquiry ends
non-pending, and the concrete owned update to a terminal label goes
through. -/
theorem pending_reachability_witness :
    inqInProgress.status ≠ "pending" ∧
    (updateInquiry [inqInProgress] [] [] updToClosed).1
      = .ok { inqInProgress with status := jsSel updToClosed.status "" } :=
  ⟨pending_reachability.1 envCompleted reqCompleted inqInProgress (by decide),
   pending_reachability.2 [inqInProgress] [] [] updToClosed inqInProgress
     (by decide) rfl rfl (by decide)⟩

/-- Counterexample to C7 as stated: the agent who owns the assigned
in-progress inquiry updates its status back to "pending" through
PUT /inquiries/:id, so the system does have an operation returning an
assigned inquiry to pending. -/
theorem pending_reachability_cex :
    inqInProgress.assignedAgent = some "A1" ∧
    inqInProgress.status = "in-progress" ∧
    (updateInquiry [inqInProgress] [] [] updBackToPending).2.map (fun i => i.status)
      = ["pending"] := by
  refine ⟨rfl, rfl, by decide⟩

/-- C10: when the agent identifier resolves in neither identity store, the
call fails with agent-not-found before any booking is created and before
any pre-existing inquiry is mutated; but on the fallback path the record
just materialized from inquiryData stays persisted, unassigned and
pending. -/
theorem agent_missing_after_fallback (env : AssignEnv) (req : AssignReq)
    (hrole : req.role = Role.admin) (hagent : jsSel req.assignedAgent "" ≠ "")
    (hnores : ¬(jsSel req.assignedAgent "" ∈ env.userIds ∨
      jsSel req.assignedAgent "" ∈ env.agentIds)) :
    (∀ inq, locateInquiry env.store req.paramsId = some inq →
      assignInquiryToAgent env req =
        { outcome := .agentNotFound, store := env.store, bookings := env.bookings }) ∧
    (∀ d, locateInquiry env.store req.paramsId = none → req.inquiryData = some d →
      env.fallbackSaveOk = true →
      assignInquiryToAgent env req =
        { outcome := .agentNotFound
          store := env.store ++ [fallbackInquiry d req.paramsId env.freshId env.now]
          bookings := env.bookings } ∧
      (fallbackInquiry d req.paramsId env.freshId env.now).assignedAgent = none ∧
      (fallbackInquiry d req.paramsId env.freshId env.now).status = "pending") := by
  constructor
  · intro inq hloc
    rw [assign_located_eq env req inq hrole hagent hloc]
    exact assignLocated_unresolved _ _ _ _ _ _ _ _ _ hnores
  · intro d hloc hdata hsave
    refine ⟨?_, rfl, rfl⟩
    rw [assign_fallback_eq env req d hrole hagent hloc hdata hsave]
    exact assignLocated_unresolved _ _ _ _ _ _ _ _ _ hnores

/-- Witness for C10: assigning the missing identifier ext-3 to the
unresolvable agent ghost leaves the materialized record persisted,
unassigned and pending, while the call fails. -/
theorem agent_missing_after_fallback_witness :
    assignInquiryToAgent envEmptyStore reqGhostAgent =
      { outcome := .agentNotFound
        store := envEmptyStore.store ++
          [fallbackInquiry fbGhost reqGhostAgent.paramsId envEmptyStore.freshId
            envEmptyStore.now]
        bookings := envEmptyStore.bookings } ∧
    (fallbackInquiry fbGhost reqGhostAgent.paramsId envEmptyStore.freshId
      envEmptyStore.now).assignedAgent = none ∧
    (fallbackInquiry fbGhost reqGhostAgent.paramsId envEmptyStore.freshId
      envEmptyStore.now).status = "pending" :=
  (agent_missing_after_fallback envEmptyStore reqGhostAgent rfl (by decide)
      (by decide)).2 fbGhost (by decide) rfl rfl

/-- C6 (amended): every store record surfaced by GET /inquiries has a
non-null assignedAgent; but store membership itself is not equivalent to
having been assigned, since the public POST /inquiries handler persists
records with assignedAgent unset. -/
theorem store_membership_vs_assignment :
    (∀ (store : List Inquiry) (resp : UpstreamResponse) (now : Nat) (role : Role)
        (c : String) (inq : Inquiry),
      ListItem.stored inq ∈ getInquiries store resp now role c →
      inq.assignedAgent ≠ none) ∧
    (∀ (store : List Inquiry) (r : CreateReq) (freshId : String) (now : Nat),
      createInquiry store r freshId now = store ++ [createInquiryDoc r freshId now] ∧
      (createInquiryDoc r freshId now).assignedAgent = none) := by
  constructor
  · intro store resp now role c inq hmem
    cases role with
    | agent =>
        have hmem2 : ListItem.stored inq ∈
            (mongoInquiries store .agent c).map ListItem.stored := hmem
        have hin : inq ∈ mongoInquiries store .agent c := by
          rcases List.mem_map.mp hmem2 with ⟨a, ha, hae⟩
          obtain rfl : a = inq := by injection hae
          exact ha
        have h2 := (List.mem_filter.mp ((List.mem_insertionSort newestFirst).mp hin)).2
        simp only [mongoFilter, decide_eq_true_eq] at h2
        simp [h2]
    | admin =>
        have hmem2 : ListItem.stored inq ∈
            (unassignedExternals (fetchExternalInquiries now resp)
              (dedupKeys (mongoInquiries store .admin c))).map ListItem.ext
            ++ (mongoInquiries store .admin c).map ListItem.stored := hmem
        rcases List.mem_append.mp hmem2 with hl | hr
        · rcases List.mem_map.mp hl with ⟨a, _, hae⟩
          exact ListItem.noConfusion hae
        · have hin : inq ∈ mongoInquiries store .admin c := by
            rcases List.mem_map.mp hr with ⟨a, ha, hae⟩
            obtain rfl : a = inq := by injection hae
            exact ha
          have h2 := (List.mem_filter.mp ((List.mem_insertionSort newestFirst).mp hin)).2
          simpa [mongoFilter] using h2
  · intro store r freshId now
    exact ⟨rfl, rfl⟩

/-- Witness for C6: the assigned record surfaced by the concrete admin
list indeed has a non-null assignedAgent. -/
theorem store_membership_vs_assignment_witness :
    inqAssignedExt1.assignedAgent ≠ none :=
  store_membership_vs_assignment.1 [inqAssignedExt1] .unrecognized 0 .admin "c"
    inqAssignedExt1 (by decide)

/-- Counterexample to C6 as stated: the public POST /inquiries handler
persists a record that has never had assignedAgent set, so store
membership does not imply a past assignment. -/
theorem store_membership_vs_assignment_cex :
    createInquiry [] createBody "f2" 3 = [createInquiryDoc createBody "f2" 3] ∧
    (createInquiryDoc createBody "f2" 3).assignedAgent = none ∧
    (createInquiryDoc createBody "f2" 3).externalId = some "ext-1" := by
  refine ⟨rfl, rfl, by decide⟩

end MTB
